import Mathlib

/-!
Shallow embedding of the Chimeo messaging server (FastAPI + SQLAlchemy) in
Lean 4, together with theorems settling the frozen claims about its
specification.  The persistent store is modelled as explicit lists of rows,
timestamps as natural numbers, and each Python service function as a pure
Lean function over the store.  Python exceptions that escape a handler are
modelled with `Except`.
-/

namespace Chimeo

/-! ## Data model (src/src/models) -/

/-- Status column of `friend_requests` (models/friendship.py, FriendRequestStatus). -/
inductive FriendRequestStatus where
  | pending
  | accepted
  | rejected
deriving DecidableEq, Repr

/-- An access or refresh JWT, modelled structurally: the signing key, the
optional sub claim and the exp claim.  Decoding checks the key and the
expiry, as python-jose does. -/
structure Jwt where
  key : String
  sub : Option String
  exp : Nat
deriving DecidableEq, Repr

/-- Result of the bcrypt hash of a token, modelled as an ideal collision-free
hash: the hash value determines the hashed token (utils/password.py,
get_token_hash / verify_token). -/
structure TokenHash where
  val : Jwt
deriving DecidableEq, Repr

/-- Row of the `users` table (models/user.py, DbUser).  The model maps the
columns username, display_name, email, hashed_password, last_seen and
created_at only: in particular it declares no hashed_refresh_token and no
refresh_token_expires_at column, which matters for the refresh flow. -/
structure DbUser where
  username : String
  display_name : String
  email : String
  hashed_password : String
  last_seen : Nat
  created_at : Nat
deriving DecidableEq, Repr

/-- Column names the DbUser model actually declares (models/user.py lines
34 to 39). -/
def db_user_columns : List String :=
  ["username", "display_name", "email", "hashed_password", "last_seen", "created_at"]

/-- Row of the `friend_requests` table (models/friendship.py, DbFriendRequest). -/
structure DbFriendRequest where
  id : String
  sender_username : String
  recipient_username : String
  status : FriendRequestStatus
deriving DecidableEq, Repr

/-- Row of the `friendships` table (models/friendship.py, DbFriendship). -/
structure DbFriendship where
  id : String
  user1_username : String
  user2_username : String
deriving DecidableEq, Repr

/-- Row of the `pending_messages` table (models/pending_message.py,
DbPendingMessage).  The model defines columns id, sender_username,
recipient_username, text and created_at only: there is no `delivered`
column, which matters for several claims. -/
structure DbPendingMessage where
  id : String
  sender_username : String
  recipient_username : String
  text : String
  created_at : Nat
deriving DecidableEq, Repr

/-- Column names the DbPendingMessage model actually declares
(models/pending_message.py lines 12 to 16). -/
def pending_message_columns : List String :=
  ["id", "sender_username", "recipient_username", "text", "created_at"]

/-- The whole persistent store: one list of rows per table, plus a counter
standing for the source of server-minted unique ids (uuid4 defaults). -/
structure DB where
  users : List DbUser
  friend_requests : List DbFriendRequest
  friendships : List DbFriendship
  pending_messages : List DbPendingMessage
  next_id : Nat
deriving DecidableEq, Repr

/-- The store of a freshly created database. -/
def emptyDB : DB :=
  { users := [], friend_requests := [], friendships := [], pending_messages := [], next_id := 0 }

/-! ## Python-level errors -/

/-- Python exceptions relevant to the embedded code paths.  `typeError` is
what the SQLAlchemy declarative constructor raises on an unknown keyword
argument; `attributeError` is what reading an undeclared model attribute
raises.  Neither is a SQLAlchemyError, so neither is caught by the
`except SQLAlchemyError` handlers of message_service.py. -/
inductive PyError where
  | typeError
  | attributeError
deriving DecidableEq, Repr

/-- Domain errors raised by the services (utils/exceptions.py). -/
inductive SvcError where
  | usernameTooShort
  | usernameExists
  | emailExists
  | weakPassword
  | userNotFound
  | friendshipExists
  | friendRequestExists
  | friendRequestNotFound
  | invalidFriendRequestState
  | cannotFriendSelf
  | notAuthorized
  | authenticationError
  | dbError
deriving DecidableEq, Repr

/-- Outcome of an HTTP route handler: an HTTP error status, an uncaught
Python exception, or a value. -/
inductive RouteError where
  | http (status : Nat)
  | raised (e : PyError)
deriving DecidableEq, Repr

/-- Error escaping a service call: a domain error raised by the service or
an uncaught Python exception. -/
inductive AppError where
  | svc (e : SvcError)
  | py (e : PyError)
deriving DecidableEq, Repr

/-! ## Friendship queries (services/friendship_service.py and
services/users_service.py; both define the same get_friendship and
are_friends) -/

/-- Python comparison of two characters: by code point. -/
def py_char_lt (a b : Char) : Bool := a.toNat < b.toNat

/-- Python comparison of two strings as character lists: lexicographic on
code points. -/
def py_str_lt_list : List Char → List Char → Bool
  | [], [] => false
  | [], _ :: _ => true
  | _ :: _, [] => false
  | a :: as, b :: bs =>
    if py_char_lt a b then true
    else if py_char_lt b a then false
    else py_str_lt_list as bs

/-- Python string comparison, the order used by sorted([a, b]). -/
def py_str_lt (a b : String) : Bool := py_str_lt_list a.toList b.toList

/-- Python sorted([a, b]) on two strings: swap exactly when b < a. -/
def sorted_pair (a b : String) : String × String :=
  if py_str_lt b a then (b, a) else (a, b)

/-- Lookup of the friendship row on the canonically sorted pair
(users_service.py, get_friendship). -/
def get_friendship (db : DB) (user1_username user2_username : String) : Option DbFriendship :=
  let p := sorted_pair user1_username user2_username
  db.friendships.find? (fun f => f.user1_username == p.1 && f.user2_username == p.2)

/-- Derived friendship relation (users_service.py, are_friends). -/
def are_friends (db : DB) (user1_username user2_username : String) : Bool :=
  (get_friendship db user1_username user2_username).isSome

/-! ## Message service (services/message_service.py) -/

/-- SQLAlchemy declarative constructor semantics: keyword arguments that are
not declared columns raise TypeError. -/
def sqlalchemy_construct (kwargs cols : List String) : Except PyError Unit :=
  if kwargs.all (fun k => cols.contains k) then Except.ok () else Except.error PyError.typeError

/-- Reading a class attribute of DbPendingMessage while building a query:
an attribute that is not a declared column raises AttributeError. -/
def pending_class_attr (name : String) : Except PyError Unit :=
  if pending_message_columns.contains name then Except.ok () else Except.error PyError.attributeError

/-- Reading the `delivered` attribute of a DbPendingMessage instance: the
model declares no such column, so the read raises AttributeError
(routes/messages.py line 84 would do this on its fallback response). -/
def pending_delivered_attr (_m : DbPendingMessage) : Except PyError Bool :=
  Except.error PyError.attributeError

/-- Translation of create_pending_message (message_service.py lines 33 to 60).
The source constructs DbPendingMessage with the keyword arguments id,
sender_username, recipient_username, text, created_at and delivered; only
SQLAlchemyError is caught, so the TypeError from the undeclared `delivered`
keyword escapes. -/
def create_pending_message (db : DB) (sender_username recipient_username text message_id : String)
    (now : Nat) : Except PyError (DbPendingMessage × DB) := do
  let _ ← sqlalchemy_construct
    ["id", "sender_username", "recipient_username", "text", "created_at", "delivered"]
    pending_message_columns
  let m : DbPendingMessage :=
    { id := message_id, sender_username := sender_username,
      recipient_username := recipient_username, text := text, created_at := now }
  Except.ok (m, { db with pending_messages := db.pending_messages ++ [m] })

/-- Translation of send_message (message_service.py lines 15 to 31): gate on
are_friends, then create the pending row; the surrounding
`except Exception` turns any escaping exception into None. -/
def send_message (db : DB) (sender_username recipient_username text message_id : String)
    (now : Nat) : Option DbPendingMessage × DB :=
  if !(are_friends db sender_username recipient_username) then (none, db)
  else
    match create_pending_message db sender_username recipient_username text message_id now with
    | Except.error _ => (none, db)
    | Except.ok (m, db2) => (some m, db2)

/-- Translation of get_pending_messages (message_service.py lines 63 to 85).
Building the query filter reads the class attributes recipient_username and
delivered; the latter is not declared, so AttributeError is raised before
the query runs, and it is not a SQLAlchemyError so it escapes the handler.
The filter body after both reads is the translation of the query the source
means to run. -/
def get_pending_messages (db : DB) (recipient_username : String) (_mark_delivered : Bool) :
    Except PyError (List DbPendingMessage) := do
  let _ ← pending_class_attr "recipient_username"
  let _ ← pending_class_attr "delivered"
  Except.ok (db.pending_messages.filter (fun m => m.recipient_username == recipient_username))

/-- Translation of mark_message_delivered (message_service.py lines 88 to
121): find the row by id, delete it, return whether a row was found.  The
WebSocket notification does not touch the store. -/
def mark_message_delivered (db : DB) (message_id : String) : Bool × DB :=
  match db.pending_messages.find? (fun m => m.id == message_id) with
  | some _ => (true, { db with pending_messages := db.pending_messages.eraseP (fun m => m.id == message_id) })
  | none => (false, db)

/-! ## Message routes (routes/messages.py) -/

/-- Response schema of POST /messages/ (schemas/messages_schemas.py,
MessageResponse). -/
structure MessageResponse where
  id : String
  sender_username : String
  recipient_username : String
  text : String
  created_at : Nat
  is_delivered : Bool
deriving DecidableEq, Repr

/-- Translation of the create_message handler (routes/messages.py lines 26
to 85).  `connected` is the set of usernames currently registered with the
connection manager and `ws_send_ok` tells whether the WebSocket transmission
to a registered recipient succeeds.  When the recipient is registered and
the send succeeds, the handler returns at once, without consulting the
message service; otherwise it falls back to send_message and raises HTTP 400
when that returns None. -/
def create_message (db : DB) (connected : List String) (ws_send_ok : Bool)
    (current_user recipient_username text message_id : String) (now : Nat) :
    Except RouteError (MessageResponse × DB) :=
  if connected.contains recipient_username && ws_send_ok then
    Except.ok
      ({ id := message_id, sender_username := current_user,
         recipient_username := recipient_username, text := text,
         created_at := now, is_delivered := true }, db)
  else
    match send_message db current_user recipient_username text message_id now with
    | (none, _) => Except.error (RouteError.http 400)
    | (some m, db2) =>
      match pending_delivered_attr m with
      | Except.error e => Except.error (RouteError.raised e)
      | Except.ok d =>
        Except.ok
          ({ id := m.id, sender_username := m.sender_username,
             recipient_username := m.recipient_username, text := m.text,
             created_at := m.created_at, is_delivered := d }, db2)

/-- Translation of the mark_message_as_delivered handler (routes/messages.py
lines 87 to 115).  The resolved current user is bound to `_` by the source
and never compared against the message recipient; the handler deletes the
row for any authenticated caller and returns 404 only when no row has the
given id.  The follow-up query and sender notification do not change the
store. -/
def mark_message_as_delivered (db : DB) (_current_user : String) (message_id : String) :
    Except RouteError (Bool × DB) :=
  match mark_message_delivered db message_id with
  | (false, _) => Except.error (RouteError.http 404)
  | (true, db2) => Except.ok (true, db2)

/-! ## Users service (services/users_service.py) -/

/-- Lookup by username (auth_service.py, get_user_by_username). -/
def get_user_by_username (db : DB) (username : String) : Option DbUser :=
  db.users.find? (fun u => u.username == username)

/-- Lookup by email (auth_service.py, get_user_by_email). -/
def get_user_by_email (db : DB) (email : String) : Option DbUser :=
  db.users.find? (fun u => u.email == email)

/-- Lookup of a friend request on the ordered pair (users_service.py,
get_friend_request). -/
def get_friend_request (db : DB) (sender_username recipient_username : String) :
    Option DbFriendRequest :=
  db.friend_requests.find?
    (fun q => q.sender_username == sender_username && q.recipient_username == recipient_username)

/-- Translation of create_friendship (users_service.py lines 56 to 85): fail
when a friendship already exists on the pair, otherwise add the row with the
sorted usernames and delete the request rows of both directions. -/
def create_friendship (db : DB) (user1_username user2_username : String) :
    Except SvcError (DbFriendship × DB) :=
  if (get_friendship db user1_username user2_username).isSome then
    Except.error SvcError.friendshipExists
  else
    let p := sorted_pair user1_username user2_username
    let f : DbFriendship := { id := toString db.next_id, user1_username := p.1, user2_username := p.2 }
    let reqs :=
      (db.friend_requests.eraseP
        (fun q => q.sender_username == user1_username && q.recipient_username == user2_username)).eraseP
        (fun q => q.sender_username == user2_username && q.recipient_username == user1_username)
    Except.ok (f,
      { db with friendships := db.friendships ++ [f], friend_requests := reqs,
                next_id := db.next_id + 1 })

/-- Translation of create_friend_request (users_service.py lines 97 to 132):
the tiered checks, then the reverse-request branch, which tests only the
existence of a reverse request, not its status, and otherwise the creation
of a new PENDING request. -/
def create_friend_request (db : DB) (sender_username recipient_username : String) :
    Except SvcError ((DbFriendRequest ⊕ DbFriendship) × DB) :=
  if sender_username == recipient_username then Except.error SvcError.cannotFriendSelf
  else if (get_user_by_username db recipient_username).isNone then Except.error SvcError.userNotFound
  else if are_friends db sender_username recipient_username then Except.error SvcError.friendshipExists
  else if (get_friend_request db sender_username recipient_username).isSome then
    Except.error SvcError.friendRequestExists
  else if (get_friend_request db recipient_username sender_username).isSome then
    match create_friendship db sender_username recipient_username with
    | Except.error e => Except.error e
    | Except.ok (f, db2) => Except.ok (Sum.inr f, db2)
  else
    let q : DbFriendRequest :=
      { id := toString db.next_id, sender_username := sender_username,
        recipient_username := recipient_username, status := FriendRequestStatus.pending }
    Except.ok (Sum.inl q,
      { db with friend_requests := db.friend_requests ++ [q], next_id := db.next_id + 1 })

/-- Translation of accept_friend_request (users_service.py lines 135 to 151):
load by id, check the recipient, check PENDING, then create the friendship. -/
def accept_friend_request (db : DB) (request_id current_user_username : String) :
    Except SvcError (DbFriendship × DB) :=
  match db.friend_requests.find? (fun q => q.id == request_id) with
  | none => Except.error SvcError.friendRequestNotFound
  | some q =>
    if q.recipient_username != current_user_username then Except.error SvcError.notAuthorized
    else if q.status != FriendRequestStatus.pending then
      Except.error SvcError.invalidFriendRequestState
    else create_friendship db q.sender_username q.recipient_username

/-- Translation of reject_friend_request (users_service.py lines 154 to 179):
same authorization checks, then the status transition to REJECTED. -/
def reject_friend_request (db : DB) (request_id current_user_username : String) :
    Except SvcError (DbFriendRequest × DB) :=
  match db.friend_requests.find? (fun q => q.id == request_id) with
  | none => Except.error SvcError.friendRequestNotFound
  | some q =>
    if q.recipient_username != current_user_username then Except.error SvcError.notAuthorized
    else if q.status != FriendRequestStatus.pending then
      Except.error SvcError.invalidFriendRequestState
    else
      let q2 : DbFriendRequest := { q with status := FriendRequestStatus.rejected }
      Except.ok (q2,
        { db with friend_requests := db.friend_requests.map (fun x => if x.id == q.id then q2 else x) })

/-! ## SQL LIKE matching, for the search query -/

/-- Fuel-bounded SQL LIKE matcher over character lists: percent matches any
run of characters, underscore exactly one, anything else itself.  The fuel
only bounds the recursion depth; with fuel above the combined lengths the
match is the standard LIKE semantics. -/
def likeMatchF : Nat → List Char → List Char → Bool
  | 0, _, _ => false
  | _ + 1, [], s => s.isEmpty
  | fuel + 1, '%' :: ps, s =>
    likeMatchF fuel ps s ||
      (match s with
       | [] => false
       | _ :: s2 => likeMatchF fuel ('%' :: ps) s2)
  | fuel + 1, '_' :: ps, s =>
    (match s with
     | [] => false
     | _ :: s2 => likeMatchF fuel ps s2)
  | fuel + 1, p :: ps, s =>
    (match s with
     | [] => false
     | c :: s2 => p == c && likeMatchF fuel ps s2)

/-- ASCII lowercasing of one character, the case folding SQL LIKE applies. -/
def py_lower_char (c : Char) : Char :=
  if 65 ≤ c.toNat ∧ c.toNat ≤ 90 then Char.ofNat (c.toNat + 32) else c

/-- ASCII lowercasing of a character list. -/
def py_lower_list (l : List Char) : List Char := l.map py_lower_char

/-- SQL LIKE on character lists, with enough fuel for a complete match. -/
def likeMatch (pattern s : List Char) : Bool :=
  likeMatchF (pattern.length + s.length + 1) pattern s

/-- Case-insensitive LIKE, the semantics of the `ilike` operator used by
search_users_by_query: both sides are case folded, then LIKE matched. -/
def ilike (s pattern : String) : Bool :=
  likeMatch (py_lower_list pattern.toList) (py_lower_list s.toList)

/-- Translation of search_users_by_query (users_service.py lines 24 to 40):
users other than the caller whose username matches ILIKE on the pattern
percent-query-percent, minus the recipients of any request the caller sent
and minus the friends of the caller, truncated to the limit. -/
def search_users_by_query (db : DB) (query current_user_username : String) (limit : Nat) :
    List DbUser :=
  let sent_requests :=
    (db.friend_requests.filter (fun r => r.sender_username == current_user_username)).map
      (fun r => r.recipient_username)
  let friends1 :=
    (db.friendships.filter (fun f => f.user1_username == current_user_username)).map
      (fun f => f.user2_username)
  let friends2 :=
    (db.friendships.filter (fun f => f.user2_username == current_user_username)).map
      (fun f => f.user1_username)
  (db.users.filter (fun u =>
      u.username != current_user_username &&
      ilike u.username ("%" ++ query ++ "%") &&
      !((sent_requests).contains u.username) &&
      !((friends1 ++ friends2).contains u.username))).take limit

/-- The /users/search route calls the service with its default limit of 20
(routes/users.py, search_users). -/
def search_users_route (db : DB) (query current_user_username : String) : List DbUser :=
  search_users_by_query db query current_user_username 20

/-! ## Auth service (services/auth_service.py, utils/password.py) -/

/-- Password strength rule (utils/password.py lines 50 to 57, with
MIN_PASSWORD_LENGTH = 1 and REQUIRE_SPECIAL_CHARS = False). -/
def validate_password_strength (password : String) : Bool :=
  1 ≤ password.length

/-- Bcrypt password hash, modelled as an injective tagged copy: no claim
depends on more than verification round-tripping. -/
def get_password_hash (password : String) : String :=
  "bcrypt$" ++ password

/-- Bcrypt hash of a token cleartext (utils/password.py, get_token_hash). -/
def get_token_hash (token : Jwt) : TokenHash :=
  { val := token }

/-- Bcrypt check of a token cleartext against a stored hash
(utils/password.py, verify_token). -/
def verify_token (plain_token : Jwt) (hashed_token : TokenHash) : Bool :=
  get_token_hash plain_token == hashed_token

/-- Decoding a JWT with python-jose (jwt.decode with the server key): fails
on a wrong key and on an expired exp claim, otherwise yields the payload
sub claim. -/
def jwt_decode (server_key : String) (now : Nat) (token : Jwt) : Except SvcError (Option String) :=
  if token.key == server_key && now ≤ token.exp then Except.ok token.sub
  else Except.error SvcError.authenticationError

/-- Access token minting (utils/password.py create_token with the configured
30 minute expiry). -/
def create_access_token (server_key : String) (sub : String) (now : Nat) : Jwt :=
  { key := server_key, sub := some sub, exp := now + 30 * 60 }

/-- Token response schema (schemas/auth_schemas.py, Token). -/
structure Token where
  access_token : Jwt
  refresh_token : Jwt
  username : String
  display_name : String
deriving DecidableEq, Repr

/-- Update of the last_seen column of one user row. -/
def update_last_seen (db : DB) (username : String) (now : Nat) : DB :=
  { db with users := db.users.map (fun u => if u.username == username then { u with last_seen := now } else u) }

/-- Reading an attribute of a DbUser instance freshly loaded from the
store: only declared columns exist on it, so an undeclared name raises
AttributeError. -/
def db_user_attr (name : String) : Except PyError Unit :=
  if db_user_columns.contains name then Except.ok () else Except.error PyError.attributeError

/-- Translation of create_user (auth_service.py lines 45 to 87).  After the
four validation tiers, the source constructs DbUser with the keyword
arguments username, email, hashed_password, display_name, last_seen,
hashed_refresh_token and refresh_token_expires_at; the last two are not
declared columns of the model, so the constructor raises TypeError on
every call and the `except Exception` handler re-raises it: registration
never persists a user row. -/
def create_user (db : DB) (username email password display_name : String) (now : Nat) :
    Except AppError (DbUser × DB) :=
  if username.length < 3 then Except.error (AppError.svc SvcError.usernameTooShort)
  else if (get_user_by_username db username).isSome then
    Except.error (AppError.svc SvcError.usernameExists)
  else if (get_user_by_email db email).isSome then
    Except.error (AppError.svc SvcError.emailExists)
  else if !(validate_password_strength password) then
    Except.error (AppError.svc SvcError.weakPassword)
  else
    match sqlalchemy_construct
      ["username", "email", "hashed_password", "display_name", "last_seen",
       "hashed_refresh_token", "refresh_token_expires_at"] db_user_columns with
    | Except.error e => Except.error (AppError.py e)
    | Except.ok _ =>
      let u : DbUser :=
        { username := username, display_name := display_name, email := email,
          hashed_password := get_password_hash password, last_seen := now, created_at := now }
      Except.ok (u, { db with users := db.users ++ [u] })

/-- Translation of create_and_store_tokens (auth_service.py lines 105 to
138) as a store transition.  The writes to user.hashed_refresh_token and
user.refresh_token_expires_at land on unmapped in-memory instance
attributes, because the DbUser model maps no such columns; the commit
persists nothing of them and they are invisible to any later request.
Only the write to the declared last_seen column reaches the store. -/
def create_and_store_tokens (db : DB) (username : String) (now : Nat) : DB :=
  update_last_seen db username now

/-- Translation of refresh_access_token (auth_service.py lines 140 to 188):
decode the presented token, require a sub claim, locate the user.  Line 156
then reads user.hashed_refresh_token, but the DbUser model maps no such
column, so the read raises AttributeError on every instance loaded from the
store; the stored-expiry comparison, the hash verification and the minting
below it are unreachable, and the refresh flow can never succeed. -/
def refresh_access_token (db : DB) (server_key : String) (now : Nat) (provided_refresh_token : Jwt) :
    Except AppError (Token × DB) :=
  match jwt_decode server_key now provided_refresh_token with
  | Except.error _ => Except.error (AppError.svc SvcError.authenticationError)
  | Except.ok none => Except.error (AppError.svc SvcError.authenticationError)
  | Except.ok (some username) =>
    match get_user_by_username db username with
    | none => Except.error (AppError.svc SvcError.authenticationError)
    | some _user =>
      match db_user_attr "hashed_refresh_token" with
      | Except.error e => Except.error (AppError.py e)
      | Except.ok _ => Except.error (AppError.py PyError.attributeError)


/-! ## Derived instances and small helpers -/

deriving instance DecidableEq for Except

/-- Whether an Except value is a success. -/
def except_ok {ε α : Type} : Except ε α → Bool
  | Except.ok _ => true
  | Except.error _ => false

/-- Whether create_friend_request returned a newly persisted request (as
opposed to an auto-accepted friendship or an error). -/
def returned_pending_request :
    Except SvcError ((DbFriendRequest ⊕ DbFriendship) × DB) → Bool
  | Except.ok (Sum.inl _, _) => true
  | _ => false

/-- Whether the second character list is a prefix of the first. -/
def starts_with : List Char → List Char → Bool
  | _, [] => true
  | [], _ :: _ => false
  | a :: as, b :: bs => a == b && starts_with as bs

/-- Whether the second character list occurs contiguously in the first. -/
def has_infix : List Char → List Char → Bool
  | [], needle => needle.isEmpty
  | a :: as, needle => starts_with (a :: as) needle || has_infix as needle

/-- Modelled from the spec: the phrase `the username case-insensitively
contains the query`, read literally as substring containment after
lowercasing, for comparison with the ILIKE pattern matching the code
performs. -/
def contains_ci (hay needle : String) : Bool :=
  has_infix (py_lower_list hay.toList) (py_lower_list needle.toList)

/-! ## Store invariant and reachable states -/

/-- Canonical form of the friendships table: every row has its usernames in
strictly increasing order, and no two rows carry the same unordered pair. -/
def canonical_friendships (l : List DbFriendship) : Prop :=
  (∀ f ∈ l, py_str_lt f.user1_username f.user2_username = true) ∧
  l.Pairwise (fun f g =>
    ¬ ((f.user1_username = g.user1_username ∧ f.user2_username = g.user2_username) ∨
       (f.user1_username = g.user2_username ∧ f.user2_username = g.user1_username)))

/-- No friend request is self-directed. -/
def requests_not_self (l : List DbFriendRequest) : Prop :=
  ∀ q ∈ l, q.sender_username ≠ q.recipient_username

/-- The store invariant carried through every reachable state. -/
def StoreInv (db : DB) : Prop :=
  canonical_friendships db.friendships ∧ requests_not_self db.friend_requests

/-- One state-changing operation of the embedded server, as invoked by the
HTTP and realtime layers.  The userRow step stands for the appearance of a
user row in the store: create_user itself can never commit one (its
constructor raises TypeError on the undeclared refresh-token keywords), so
rows present in a store, for instance seeded externally or by an earlier
schema, are modelled by this step, which only enlarges the reachable set
beyond what the running code can produce. -/
inductive Step : DB → DB → Prop where
  | userRow (db : DB) (u : DbUser) (db2 : DB) :
      db2 = { db with users := db.users ++ [u] } →
      Step db db2
  | friendRequest (db : DB) (sender recipient : String)
      (res : DbFriendRequest ⊕ DbFriendship) (db2 : DB) :
      create_friend_request db sender recipient = Except.ok (res, db2) →
      Step db db2
  | accept (db : DB) (request_id current_user : String) (f : DbFriendship) (db2 : DB) :
      accept_friend_request db request_id current_user = Except.ok (f, db2) →
      Step db db2
  | reject (db : DB) (request_id current_user : String) (q : DbFriendRequest) (db2 : DB) :
      reject_friend_request db request_id current_user = Except.ok (q, db2) →
      Step db db2
  | message (db : DB) (connected : List String) (ws_send_ok : Bool)
      (current_user recipient text message_id : String) (now : Nat)
      (resp : MessageResponse) (db2 : DB) :
      create_message db connected ws_send_ok current_user recipient text message_id now
        = Except.ok (resp, db2) →
      Step db db2
  | delivered (db : DB) (current_user message_id : String) (b : Bool) (db2 : DB) :
      mark_message_as_delivered db current_user message_id = Except.ok (b, db2) →
      Step db db2
  | tokens (db : DB) (username : String) (now : Nat) :
      Step db (create_and_store_tokens db username now)
  | refresh (db : DB) (server_key : String) (now : Nat) (tok : Jwt)
      (resp : Token) (db2 : DB) :
      refresh_access_token db server_key now tok = Except.ok (resp, db2) →
      Step db db2

/-- Store states reachable from a fresh database through the operations. -/
inductive Reachable : DB → Prop where
  | init : Reachable emptyDB
  | step {db db2 : DB} : Reachable db → Step db db2 → Reachable db2

/-! ## Concrete stores used by the claim evaluations -/

/-- Helper user row with fixed credentials, for concrete stores. -/
def mkUser (username : String) (email : String) : DbUser :=
  { username := username, display_name := username, email := email,
    hashed_password := get_password_hash "pw", last_seen := 0, created_at := 0 }

/-- Store for the send evaluations: alice and bob are friends, no pending
messages. -/
def exMsgDB : DB :=
  { users := [mkUser "alice" "a@x.io", mkUser "bob" "b@x.io"],
    friend_requests := [],
    friendships := [{ id := "f1", user1_username := "alice", user2_username := "bob" }],
    pending_messages := [],
    next_id := 0 }

/-- The response frame returned when bob is connected. -/
def exMsgResponse : MessageResponse :=
  { id := "m1", sender_username := "alice", recipient_username := "bob",
    text := "hi", created_at := 7, is_delivered := true }

/-- Store for the friendship-gate evaluations: carol and alice exist and are
not friends. -/
def exGateDB : DB :=
  { users := [mkUser "alice" "a@x.io", mkUser "carol" "c@x.io"],
    friend_requests := [],
    friendships := [],
    pending_messages := [],
    next_id := 0 }

/-- The response the handler returns to carol although carol and alice are
not friends. -/
def exGateResponse : MessageResponse :=
  { id := "m2", sender_username := "carol", recipient_username := "alice",
    text := "yo", created_at := 7, is_delivered := true }

/-- Store with one pending message addressed to bob. -/
def exAckDB : DB :=
  { users := [mkUser "alice" "a@x.io", mkUser "bob" "b@x.io", mkUser "mallory" "m@x.io"],
    friend_requests := [],
    friendships := [{ id := "f1", user1_username := "alice", user2_username := "bob" }],
    pending_messages := [{ id := "m1", sender_username := "alice", recipient_username := "bob",
                           text := "hi", created_at := 1 }],
    next_id := 0 }

/-- The store exAckDB after the pending row is deleted. -/
def exAckDB2 : DB :=
  { exAckDB with pending_messages := [] }

/-- The reverse request bob to alice, already REJECTED by alice. -/
def exRevReq : DbFriendRequest :=
  { id := "r1", sender_username := "bob", recipient_username := "alice",
    status := FriendRequestStatus.rejected }

/-- Store holding only the rejected reverse request on the pair. -/
def exRevDB : DB :=
  { users := [mkUser "alice" "a@x.io", mkUser "bob" "b@x.io"],
    friend_requests := [exRevReq],
    friendships := [],
    pending_messages := [],
    next_id := 2 }

/-- The friendship the reverse-request branch creates from exRevDB. -/
def exRevFriendship : DbFriendship :=
  { id := "2", user1_username := "alice", user2_username := "bob" }

/-- The store after the auto-accept from exRevDB. -/
def exRevDB2 : DB :=
  { exRevDB with friend_requests := [], friendships := [exRevFriendship], next_id := 3 }

/-- A pending request alice to bob, used for the accept checks. -/
def exAccReq : DbFriendRequest :=
  { id := "r1", sender_username := "alice", recipient_username := "bob",
    status := FriendRequestStatus.pending }

/-- A rejected request carol to bob, used for the invalid-state check. -/
def exAccRejReq : DbFriendRequest :=
  { id := "r2", sender_username := "carol", recipient_username := "bob",
    status := FriendRequestStatus.rejected }

/-- Store for the accept evaluations. -/
def exAccDB : DB :=
  { users := [mkUser "alice" "a@x.io", mkUser "bob" "b@x.io", mkUser "carol" "c@x.io"],
    friend_requests := [exAccReq, exAccRejReq],
    friendships := [],
    pending_messages := [],
    next_id := 7 }

/-- The friendship accepting exAccReq creates. -/
def exAccFriendship : DbFriendship :=
  { id := "7", user1_username := "alice", user2_username := "bob" }

/-- The store after bob accepts exAccReq. -/
def exAccDB2 : DB :=
  { exAccDB with friend_requests := [exAccRejReq], friendships := [exAccFriendship], next_id := 8 }

/-- A refresh token signed with the server key for alice. -/
def exRefTok : Jwt := { key := "k", sub := some "alice", exp := 1000 }

/-- Store for the refresh evaluations: alice exists. -/
def exRefDB : DB :=
  { users := [mkUser "alice" "a@x.io"], friend_requests := [], friendships := [],
    pending_messages := [], next_id := 0 }

/-- Store for the search evaluations: alice and bob, unrelated. -/
def exSearchDB : DB :=
  { users := [mkUser "alice" "a@x.io", mkUser "bob" "b@x.io"],
    friend_requests := [], friendships := [], pending_messages := [], next_id := 0 }

/-- Reachability chain stores: the empty store, then alice, then bob. -/
def ex9_alice : DbUser := mkUser "alice" "a@x.io"

/-- User row for bob in the reachability chain. -/
def ex9_bob : DbUser := mkUser "bob" "b@x.io"

/-- Store after registering alice. -/
def ex9_db1 : DB := { emptyDB with users := [ex9_alice] }

/-- Store after registering bob. -/
def ex9_db2 : DB := { emptyDB with users := [ex9_alice, ex9_bob] }

/-- The friend request alice to bob minted from ex9_db2. -/
def ex9_req : DbFriendRequest :=
  { id := "0", sender_username := "alice", recipient_username := "bob",
    status := FriendRequestStatus.pending }

/-- Store after alice requests bob. -/
def ex9_db3 : DB := { ex9_db2 with friend_requests := [ex9_req], next_id := 1 }

/-- The friendship minted when bob accepts. -/
def ex9_friendship : DbFriendship :=
  { id := "1", user1_username := "alice", user2_username := "bob" }

/-- Store after bob accepts: one canonical friendship row. -/
def ex9_db4 : DB := { ex9_db2 with friendships := [ex9_friendship], next_id := 2 }

/-! ## Helper lemmas on the Python string order -/

theorem py_str_lt_list_irrefl : ∀ l, py_str_lt_list l l = false
  | [] => rfl
  | a :: as => by simp [py_str_lt_list, py_char_lt, py_str_lt_list_irrefl as]

theorem py_str_lt_list_asymm : ∀ l1 l2, py_str_lt_list l1 l2 = true → py_str_lt_list l2 l1 = false
  | [], [] => by simp [py_str_lt_list]
  | [], _ :: _ => by simp [py_str_lt_list]
  | _ :: _, [] => by simp [py_str_lt_list]
  | a :: as, b :: bs => by
    simp only [py_str_lt_list, py_char_lt]
    intro h
    by_cases hab : a.toNat < b.toNat
    · have hba : ¬ b.toNat < a.toNat := by omega
      simp [hab, hba]
    · by_cases hba : b.toNat < a.toNat
      · simp [hab, hba] at h
      · simp only [hab, hba] at h ⊢
        simp at h ⊢
        exact py_str_lt_list_asymm as bs h

theorem py_str_lt_list_conn :
    ∀ l1 l2, py_str_lt_list l1 l2 = false → py_str_lt_list l2 l1 = false → l1 = l2
  | [], [] => by simp
  | [], _ :: _ => by simp [py_str_lt_list]
  | _ :: _, [] => by simp [py_str_lt_list]
  | a :: as, b :: bs => by
    simp only [py_str_lt_list, py_char_lt]
    intro h1 h2
    by_cases hab : a.toNat < b.toNat
    · simp [hab] at h1
    · by_cases hba : b.toNat < a.toNat
      · simp [hab, hba] at h2
      · have hab2 : ¬ a.val.toNat < b.val.toNat := hab
        have hba2 : ¬ b.val.toNat < a.val.toNat := hba
        have hch : a = b := Char.eq_of_val_eq (UInt32.toNat.inj (by omega))
        simp only [hab, hba] at h1 h2
        simp at h1 h2
        have := py_str_lt_list_conn as bs h1 h2
        simp [hch, this]

theorem py_str_lt_conn (a b : String) (h1 : py_str_lt a b = false) (h2 : py_str_lt b a = false) :
    a = b := by
  have h3 : a.toList = b.toList := py_str_lt_list_conn a.toList b.toList h1 h2
  exact String.toList_inj.mp h3

theorem py_str_lt_asymm (a b : String) (h : py_str_lt a b = true) : py_str_lt b a = false :=
  py_str_lt_list_asymm a.toList b.toList h

theorem sorted_pair_lt (a b : String) (hne : a ≠ b) :
    py_str_lt (sorted_pair a b).1 (sorted_pair a b).2 = true := by
  unfold sorted_pair
  by_cases h : py_str_lt b a = true
  · simp [h]
  · have h2 : py_str_lt b a = false := by simpa using h
    simp only [h2, Bool.false_eq_true, if_false]
    cases hab : py_str_lt a b with
    | true => rfl
    | false => exact absurd (py_str_lt_conn a b hab h2) hne

/-! ## Helper lemmas on the message paths -/

theorem send_message_returns_none (db : DB) (s r t i : String) (n : Nat) :
    send_message db s r t i n = (none, db) := by
  unfold send_message
  split
  · rfl
  · rfl

theorem create_message_ok_state (db : DB) (conn : List String) (ws : Bool)
    (cu r t mid : String) (now : Nat) (resp : MessageResponse) (db2 : DB)
    (h : create_message db conn ws cu r t mid now = Except.ok (resp, db2)) : db2 = db := by
  unfold create_message at h
  split at h
  · simp only [Except.ok.injEq, Prod.mk.injEq] at h
    exact h.2.symm
  · rw [send_message_returns_none] at h
    simp at h

theorem mark_message_delivered_tables (db : DB) (mid : String) :
    (mark_message_delivered db mid).2.friendships = db.friendships ∧
    (mark_message_delivered db mid).2.friend_requests = db.friend_requests := by
  unfold mark_message_delivered
  split
  · exact ⟨rfl, rfl⟩
  · exact ⟨rfl, rfl⟩

theorem mark_message_as_delivered_tables (db : DB) (cu mid : String) (b : Bool) (db2 : DB)
    (h : mark_message_as_delivered db cu mid = Except.ok (b, db2)) :
    db2.friendships = db.friendships ∧ db2.friend_requests = db.friend_requests := by
  unfold mark_message_as_delivered at h
  rcases hm : mark_message_delivered db mid with ⟨success, dbm⟩
  rw [hm] at h
  cases success
  · simp at h
  · simp only [Except.ok.injEq, Prod.mk.injEq] at h
    have hdb : db2 = dbm := h.2.symm
    subst hdb
    have := mark_message_delivered_tables db mid
    rw [hm] at this
    exact this

/-! ## C4: the store-and-forward path always raises -/

/-- C4.  The store-and-forward path of the message service is never total or
usable: create_pending_message always raises TypeError, because the
DbPendingMessage constructor is passed the keyword argument delivered while
the model declares no such column, and get_pending_messages always raises
AttributeError, because its query filter reads the undeclared class
attribute DbPendingMessage.delivered.  No pending message can ever be
stored or listed through this service. -/
theorem pending_store_path_always_raises :
    (∀ (db : DB) (s r t i : String) (now : Nat),
      create_pending_message db s r t i now = Except.error PyError.typeError) ∧
    (∀ (db : DB) (r : String) (md : Bool),
      get_pending_messages db r md = Except.error PyError.attributeError) := by
  constructor
  · intro db s r t i now
    rfl
  · intro db r md
    rfl

/-! ## C1: a successful send never persists a PendingMessage -/

/-- C1 evaluation.  With alice and bob friends: when bob is offline the send
fails with HTTP 400 because the persistence path raises TypeError inside
the service and send_message returns None, and when bob is connected the
send succeeds but returns with the store untouched; in neither case does a
successful send leave a PendingMessage row. -/
theorem send_never_persists_eval :
    create_message exMsgDB [] true "alice" "bob" "hi" "m1" 7
      = Except.error (RouteError.http 400) ∧
    create_message exMsgDB ["bob"] true "alice" "bob" "hi" "m1" 7
      = Except.ok (exMsgResponse, exMsgDB) ∧
    exMsgDB.pending_messages = [] ∧
    are_friends exMsgDB "alice" "bob" = true := by
  refine ⟨by decide, by decide, rfl, by decide⟩

/-! ## C2: the friendship gate is bypassed on the live path and yields 400,
not 403, on the fallback path -/

/-- C2 evaluation.  carol and alice share no friendship, yet when alice
holds a live connection the handler delivers the frame and returns success
without ever consulting are_friends; when alice is offline the handler
raises HTTP 400, not the transport-level 403 the claim states. -/
theorem friendship_gate_bypassed_eval :
    are_friends exGateDB "carol" "alice" = false ∧
    create_message exGateDB ["alice"] true "carol" "alice" "yo" "m2" 7
      = Except.ok (exGateResponse, exGateDB) ∧
    create_message exGateDB [] true "carol" "alice" "yo" "m2" 7
      = Except.error (RouteError.http 400) := by
  refine ⟨by decide, by decide, by decide⟩

/-! ## C3: the delivery acknowledgment route checks no recipient -/

/-- C3 evaluation.  The pending message m1 is addressed to bob, yet the call
by mallory, who is neither its sender nor its recipient, succeeds and
deletes the row: the handler never compares the message recipient with the
authenticated caller. -/
theorem ack_by_non_recipient_deletes_eval :
    mark_message_as_delivered exAckDB "mallory" "m1" = Except.ok (true, exAckDB2) ∧
    exAckDB2.pending_messages = [] ∧
    (exAckDB.pending_messages.map DbPendingMessage.recipient_username) = ["bob"] := by
  refine ⟨by decide, rfl, rfl⟩

/-! ## C6: listing pending messages raises instead of returning a FIFO list -/

/-- C6 evaluation.  With one stored message addressed to bob, list-pending
raises AttributeError while building its filter on the undeclared
DbPendingMessage.delivered attribute, so neither the HTTP pending listing
nor the flush-on-connect path ever obtains the FIFO list the claim
describes; the exception escapes because it is not a SQLAlchemyError. -/
theorem list_pending_raises_eval :
    get_pending_messages exAckDB "bob" false = Except.error PyError.attributeError ∧
    get_pending_messages exAckDB "bob" true = Except.error PyError.attributeError ∧
    exAckDB.pending_messages ≠ [] := by
  refine ⟨rfl, rfl, by decide⟩

/-! ## C5: the implicit-acceptance branch ignores the reverse request status -/

/-- C5 counterexample.  In exRevDB the only record on the pair is the
reverse request bob to alice with status REJECTED, yet send_request by
alice returns an auto-accepted Friendship rather than persisting a new
PENDING request: the code tests only the existence of the reverse request,
never its status. -/
theorem reverse_rejected_autoaccept_counterexample :
    returned_pending_request (create_friend_request exRevDB "alice" "bob") = false ∧
    create_friend_request exRevDB "alice" "bob" = Except.ok (Sum.inr exRevFriendship, exRevDB2) ∧
    exRevDB.friend_requests.map DbFriendRequest.status = [FriendRequestStatus.rejected] := by
  refine ⟨by decide, by decide, rfl⟩

/-- C5 amended.  Whenever a reverse FriendRequest B to A exists with any
status, and the first four tiers pass, send_request(A, B) takes the
implicit-acceptance branch: it returns a Friendship with the canonically
sorted pair appended to the friendships table; a new PENDING request is
persisted only when no reverse request exists at all. -/
theorem reverse_request_any_status_autoaccepts (db : DB) (A B : String)
    (hAB : A ≠ B)
    (hrecip : (get_user_by_username db B).isSome = true)
    (hnotfr : are_friends db A B = false)
    (hnofwd : ∀ q ∈ db.friend_requests, ¬ (q.sender_username = A ∧ q.recipient_username = B))
    (hrev : (get_friend_request db B A).isSome = true) :
    ∃ f db2, create_friend_request db A B = Except.ok (Sum.inr f, db2) ∧
      f.user1_username = (sorted_pair A B).1 ∧
      f.user2_username = (sorted_pair A B).2 ∧
      db2.friendships = db.friendships ++ [f] := by
  have h1 : (A == B) = false := beq_eq_false_iff_ne.mpr hAB
  have h2 : (get_user_by_username db B).isNone = false := by
    rcases Option.isSome_iff_exists.mp hrecip with ⟨u, hu⟩
    simp [hu]
  have h3 : get_friend_request db A B = none := by
    apply List.find?_eq_none.mpr
    intro q hq
    have hq2 := hnofwd q hq
    simp only [Bool.and_eq_true, beq_iff_eq]
    exact fun hc => hq2 ⟨hc.1, hc.2⟩
  have h4 : (get_friendship db A B).isSome = false := hnotfr
  unfold create_friend_request create_friendship
  simp only [h1, h2, h3, h4, hnotfr, hrev, Bool.false_eq_true, if_false, if_true,
    Option.isSome_none, Option.isNone_none]
  exact ⟨_, _, rfl, rfl, rfl, rfl⟩

/-- C5 witness.  The amended statement applied to the concrete store whose
only record on the pair is the REJECTED reverse request. -/
theorem reverse_request_any_status_autoaccepts_witness :
    ∃ f db2, create_friend_request exRevDB "alice" "bob" = Except.ok (Sum.inr f, db2) ∧
      f.user1_username = (sorted_pair "alice" "bob").1 ∧
      f.user2_username = (sorted_pair "alice" "bob").2 ∧
      db2.friendships = exRevDB.friendships ++ [f] :=
  reverse_request_any_status_autoaccepts exRevDB "alice" "bob"
    (by decide) (by decide) (by decide) (by decide) (by decide)

/-! ## C7: order of checks and effect of accept_request -/

theorem eraseP_unique_none {α : Type} (p : α → Bool) :
    ∀ l : List α, l.Pairwise (fun a b => ¬ (p a = true ∧ p b = true)) →
      ∀ x ∈ l.eraseP p, p x = false
  | [], _, x, hx => by simp at hx
  | a :: l, h, x, hx => by
    rcases List.pairwise_cons.mp h with ⟨ha, hl⟩
    by_cases hpa : p a = true
    · rw [List.eraseP_cons_of_pos hpa] at hx
      by_contra hpx
      exact ha x hx ⟨hpa, by simpa using hpx⟩
    · rw [List.eraseP_cons_of_neg (by simpa using hpa)] at hx
      rcases List.mem_cons.mp hx with rfl | hx2
      · simpa using hpa
      · exact eraseP_unique_none p l hl x hx2

/-- C7.  accept_request fails FRIEND_REQUEST_NOT_FOUND when no stored
request has the id, NOT_AUTHORIZED when the request is addressed to someone
else, INVALID_FRIEND_REQUEST_STATE when it is found, addressed to the
caller, but not PENDING, the checks applied in that order; and on success
the created friendship carries the canonically sorted pair, is appended to
the friendships table, and, provided requests are unique per ordered pair,
both direction request rows are gone afterwards. -/
theorem accept_request_checks_and_success (db : DB) (rid cu : String) :
    ((∀ q ∈ db.friend_requests, q.id ≠ rid) →
      accept_friend_request db rid cu = Except.error SvcError.friendRequestNotFound) ∧
    (∀ q, db.friend_requests.find? (fun x => x.id == rid) = some q →
      (q.recipient_username ≠ cu →
        accept_friend_request db rid cu = Except.error SvcError.notAuthorized) ∧
      (q.recipient_username = cu → q.status ≠ FriendRequestStatus.pending →
        accept_friend_request db rid cu = Except.error SvcError.invalidFriendRequestState)) ∧
    (∀ f db2, accept_friend_request db rid cu = Except.ok (f, db2) →
      ∃ q, db.friend_requests.find? (fun x => x.id == rid) = some q ∧
        q.recipient_username = cu ∧ q.status = FriendRequestStatus.pending ∧
        f.user1_username = (sorted_pair q.sender_username q.recipient_username).1 ∧
        f.user2_username = (sorted_pair q.sender_username q.recipient_username).2 ∧
        db2.friendships = db.friendships ++ [f] ∧
        (db.friend_requests.Pairwise (fun a b =>
            ¬ (a.sender_username = b.sender_username ∧
               a.recipient_username = b.recipient_username)) →
          get_friend_request db2 q.sender_username q.recipient_username = none ∧
          get_friend_request db2 q.recipient_username q.sender_username = none)) := by
  refine ⟨?_, ?_, ?_⟩
  · intro hnone
    have hfind : db.friend_requests.find? (fun x => x.id == rid) = none := by
      apply List.find?_eq_none.mpr
      intro x hx
      simpa using hnone x hx
    unfold accept_friend_request
    rw [hfind]
  · intro q hfind
    constructor
    · intro hne
      unfold accept_friend_request
      rw [hfind]
      show (if (q.recipient_username != cu) = true then _ else _) = _
      rw [if_pos (by simpa using hne)]
    · intro heq hst
      unfold accept_friend_request
      rw [hfind]
      show (if (q.recipient_username != cu) = true then _ else _) = _
      rw [if_neg (by simp [heq]), if_pos (by simpa using hst)]
  · intro f db2 h
    unfold accept_friend_request at h
    split at h
    · simp at h
    · rename_i q hfind
      split at h
      · simp at h
      · split at h
        · simp at h
        · rename_i hrcu hst
          have hrcu2 : q.recipient_username = cu := by simpa using hrcu
          have hst2 : q.status = FriendRequestStatus.pending := by simpa using hst
          unfold create_friendship at h
          split at h
          · simp at h
          · simp only [Except.ok.injEq, Prod.mk.injEq] at h
            obtain ⟨hf, hdb2⟩ := h
            subst hf
            subst hdb2
            refine ⟨q, hfind, hrcu2, hst2, rfl, rfl, rfl, ?_⟩
            intro hpw
            constructor
            · apply List.find?_eq_none.mpr
              intro x hx
              have hx1 : x ∈ db.friend_requests.eraseP
                  (fun r => r.sender_username == q.sender_username &&
                    r.recipient_username == q.recipient_username) :=
                (List.eraseP_sublist _).subset hx
              have hpw1 : db.friend_requests.Pairwise (fun a b =>
                  ¬ ((a.sender_username == q.sender_username &&
                      a.recipient_username == q.recipient_username) = true ∧
                     (b.sender_username == q.sender_username &&
                      b.recipient_username == q.recipient_username) = true)) := by
                refine hpw.imp ?_
                intro a b hab hc
                rcases hc with ⟨ha, hb⟩
                simp only [Bool.and_eq_true, beq_iff_eq] at ha hb
                exact hab ⟨ha.1.trans hb.1.symm, ha.2.trans hb.2.symm⟩
              have := eraseP_unique_none _ db.friend_requests hpw1 x hx1
              simpa using this
            · apply List.find?_eq_none.mpr
              intro x hx
              have hpw1 : db.friend_requests.Pairwise (fun a b =>
                  ¬ ((a.sender_username == q.recipient_username &&
                      a.recipient_username == q.sender_username) = true ∧
                     (b.sender_username == q.recipient_username &&
                      b.recipient_username == q.sender_username) = true)) := by
                refine hpw.imp ?_
                intro a b hab hc
                rcases hc with ⟨ha, hb⟩
                simp only [Bool.and_eq_true, beq_iff_eq] at ha hb
                exact hab ⟨ha.1.trans hb.1.symm, ha.2.trans hb.2.symm⟩
              have hpw2 : (db.friend_requests.eraseP
                  (fun r => r.sender_username == q.sender_username &&
                    r.recipient_username == q.recipient_username)).Pairwise (fun a b =>
                  ¬ ((a.sender_username == q.recipient_username &&
                      a.recipient_username == q.sender_username) = true ∧
                     (b.sender_username == q.recipient_username &&
                      b.recipient_username == q.sender_username) = true)) :=
                hpw1.sublist (List.eraseP_sublist _)
              have := eraseP_unique_none _ _ hpw2 x hx
              simpa using this

/-- C7 witness.  The checks and the success path evaluated on the concrete
store exAccDB: an unknown id, an acceptance attempt by the wrong user, an
acceptance of a rejected request, and the successful acceptance of the
pending request by its recipient. -/
theorem accept_request_checks_witness :
    accept_friend_request exAccDB "zzz" "bob" = Except.error SvcError.friendRequestNotFound ∧
    accept_friend_request exAccDB "r1" "alice" = Except.error SvcError.notAuthorized ∧
    accept_friend_request exAccDB "r2" "bob" = Except.error SvcError.invalidFriendRequestState ∧
    (∃ q, exAccDB.friend_requests.find? (fun x => x.id == "r1") = some q ∧
      q.recipient_username = "bob" ∧ q.status = FriendRequestStatus.pending ∧
      exAccFriendship.user1_username = (sorted_pair q.sender_username q.recipient_username).1 ∧
      exAccFriendship.user2_username = (sorted_pair q.sender_username q.recipient_username).2 ∧
      exAccDB2.friendships = exAccDB.friendships ++ [exAccFriendship] ∧
      (exAccDB.friend_requests.Pairwise (fun a b =>
          ¬ (a.sender_username = b.sender_username ∧
             a.recipient_username = b.recipient_username)) →
        get_friend_request exAccDB2 q.sender_username q.recipient_username = none ∧
        get_friend_request exAccDB2 q.recipient_username q.sender_username = none)) :=
  ⟨(accept_request_checks_and_success exAccDB "zzz" "bob").1 (by decide),
   ((accept_request_checks_and_success exAccDB "r1" "alice").2.1 exAccReq (by decide)).1 (by decide),
   ((accept_request_checks_and_success exAccDB "r2" "bob").2.1 exAccRejReq (by decide)).2
     (by decide) (by decide),
   (accept_request_checks_and_success exAccDB "r1" "bob").2.2 exAccFriendship exAccDB2 (by decide)⟩

/-! ## C8: the refresh flow -/

theorem refresh_not_ok (db : DB) (key : String) (now : Nat) (tok : Jwt) (p : Token × DB) :
    refresh_access_token db key now tok ≠ Except.ok p := by
  unfold refresh_access_token
  split
  · simp
  · simp
  · split
    · simp
    · simp [db_user_attr, db_user_columns]

/-- C8.  The refresh flow can never succeed, so the claimed success
condition is unsatisfiable: the DbUser model declares no
hashed_refresh_token and no refresh_token_expires_at column, hence
create_user always raises TypeError from the two undeclared constructor
keywords (registration never persists a user row), and
refresh_access_token, whenever the presented token decodes and names an
existing user, raises AttributeError reading user.hashed_refresh_token
before any expiry or hash check can run; every other path fails the
earlier checks with AUTHENTICATION_ERROR. -/
theorem refresh_flow_always_fails :
    (∀ (db : DB) (un em pw dn : String) (now : Nat),
      except_ok (create_user db un em pw dn now) = false) ∧
    (∀ (db : DB) (key : String) (now : Nat) (tok : Jwt),
      except_ok (refresh_access_token db key now tok) = false) ∧
    (∀ (db : DB) (key : String) (now : Nat) (tok : Jwt) (s : String) (u : DbUser),
      jwt_decode key now tok = Except.ok (some s) →
      get_user_by_username db s = some u →
      refresh_access_token db key now tok = Except.error (AppError.py PyError.attributeError)) ∧
    create_user emptyDB "alice" "a@x.io" "pw" "A" 0
      = Except.error (AppError.py PyError.typeError) ∧
    refresh_access_token exRefDB "k" 100 exRefTok
      = Except.error (AppError.py PyError.attributeError) := by
  refine ⟨?_, ?_, ?_, by decide, by decide⟩
  · intro db un em pw dn now
    unfold create_user
    split
    · rfl
    · split
      · rfl
      · split
        · rfl
        · split
          · rfl
          · rfl
  · intro db key now tok
    unfold refresh_access_token
    split
    · rfl
    · rfl
    · split
      · rfl
      · rfl
  · intro db key now tok s u hdec huser
    unfold refresh_access_token
    simp [hdec, huser, db_user_attr, db_user_columns]

/-! ## C9: canonical ordering and uniqueness of friendship rows -/

theorem create_friendship_preserves_inv (db : DB) (a b : String) (hne : a ≠ b)
    (hinv : StoreInv db) (f : DbFriendship) (db2 : DB)
    (h : create_friendship db a b = Except.ok (f, db2)) : StoreInv db2 := by
  unfold create_friendship at h
  split at h
  · simp at h
  · rename_i hguard
    simp only [Except.ok.injEq, Prod.mk.injEq] at h
    obtain ⟨hf, hdb2⟩ := h
    subst hf
    subst hdb2
    obtain ⟨⟨hcanon, hpw⟩, hreq⟩ := hinv
    have hguard2 : get_friendship db a b = none := by
      cases hg : get_friendship db a b with
      | none => rfl
      | some x => rw [hg] at hguard; simp at hguard
    have hplt : py_str_lt (sorted_pair a b).1 (sorted_pair a b).2 = true := sorted_pair_lt a b hne
    have hnotin : ∀ g ∈ db.friendships,
        ¬ ((g.user1_username == (sorted_pair a b).1 &&
            g.user2_username == (sorted_pair a b).2) = true) := by
      intro g hg
      exact List.find?_eq_none.mp hguard2 g hg
    unfold StoreInv canonical_friendships requests_not_self
    refine ⟨⟨?_, ?_⟩, ?_⟩
    · intro g hg
      rcases List.mem_append.mp hg with hg1 | hg2
      · exact hcanon g hg1
      · obtain rfl := List.mem_singleton.mp hg2
        exact hplt
    · refine List.pairwise_append.mpr ⟨hpw, List.pairwise_singleton _ _, ?_⟩
      intro g hg g2 hg2
      obtain rfl := List.mem_singleton.mp hg2
      intro hc
      rcases hc with ⟨h1, h2⟩ | ⟨h1, h2⟩
      · exact hnotin g hg (by simp [h1, h2])
      · have hglt : py_str_lt g.user1_username g.user2_username = true := hcanon g hg
        rw [h1, h2] at hglt
        rw [py_str_lt_asymm _ _ hplt] at hglt
        exact Bool.false_ne_true hglt
    · intro x hx
      have hx1 := (List.eraseP_sublist _).subset hx
      have hx2 := (List.eraseP_sublist _).subset hx1
      exact hreq x hx2

theorem create_friend_request_preserves_inv (db : DB) (s r : String)
    (hinv : StoreInv db) (res : DbFriendRequest ⊕ DbFriendship) (db2 : DB)
    (h : create_friend_request db s r = Except.ok (res, db2)) : StoreInv db2 := by
  unfold create_friend_request at h
  split at h
  · simp at h
  · rename_i hne_cond
    have hne : s ≠ r := by simpa using hne_cond
    split at h
    · simp at h
    · split at h
      · simp at h
      · split at h
        · simp at h
        · split at h
          · split at h
            · simp at h
            · rename_i f2 p hcf
              simp only [Except.ok.injEq, Prod.mk.injEq] at h
              obtain ⟨_, hdb2⟩ := h
              subst hdb2
              exact create_friendship_preserves_inv db s r hne hinv f2 p hcf
          · simp only [Except.ok.injEq, Prod.mk.injEq] at h
            obtain ⟨_, hdb2⟩ := h
            subst hdb2
            refine ⟨hinv.1, ?_⟩
            intro x hx
            rcases List.mem_append.mp hx with hx1 | hx2
            · exact hinv.2 x hx1
            · obtain rfl := List.mem_singleton.mp hx2
              exact hne

theorem accept_preserves_inv (db : DB) (rid cu : String) (hinv : StoreInv db)
    (f : DbFriendship) (db2 : DB)
    (h : accept_friend_request db rid cu = Except.ok (f, db2)) : StoreInv db2 := by
  unfold accept_friend_request at h
  split at h
  · simp at h
  · rename_i q hfind
    split at h
    · simp at h
    · split at h
      · simp at h
      · have hq : q ∈ db.friend_requests := List.mem_of_find?_eq_some hfind
        exact create_friendship_preserves_inv db _ _ (hinv.2 q hq) hinv f db2 h

theorem reject_preserves_inv (db : DB) (rid cu : String) (hinv : StoreInv db)
    (q2 : DbFriendRequest) (db2 : DB)
    (h : reject_friend_request db rid cu = Except.ok (q2, db2)) : StoreInv db2 := by
  unfold reject_friend_request at h
  split at h
  · simp at h
  · rename_i q hfind
    split at h
    · simp at h
    · split at h
      · simp at h
      · simp only [Except.ok.injEq, Prod.mk.injEq] at h
        obtain ⟨_, hdb2⟩ := h
        subst hdb2
        refine ⟨hinv.1, ?_⟩
        intro x hx
        rcases List.mem_map.mp hx with ⟨y, hy, hxy⟩
        subst hxy
        by_cases hid : (y.id == q.id) = true
        · simp only [hid, if_true]
          exact hinv.2 q (List.mem_of_find?_eq_some hfind)
        · simp only [hid, if_false]
          exact hinv.2 y hy

theorem step_preserves_inv (db db2 : DB) (hinv : StoreInv db) (h : Step db db2) :
    StoreInv db2 := by
  cases h with
  | userRow u db2 heq =>
    subst heq
    exact hinv
  | friendRequest s r res db2 heq =>
    exact create_friend_request_preserves_inv db s r hinv res db2 heq
  | accept rid cu f db2 heq =>
    exact accept_preserves_inv db rid cu hinv f db2 heq
  | reject rid cu q db2 heq =>
    exact reject_preserves_inv db rid cu hinv q db2 heq
  | message conn ws cu r t mid now resp db2 heq =>
    rw [create_message_ok_state db conn ws cu r t mid now resp db2 heq]
    exact hinv
  | delivered cu mid b db2 heq =>
    obtain ⟨h1, h2⟩ := mark_message_as_delivered_tables db cu mid b db2 heq
    exact ⟨by rw [h1]; exact hinv.1, by rw [h2]; exact hinv.2⟩
  | tokens un now =>
    exact hinv
  | refresh key now tok resp db2 heq =>
    exact absurd heq (refresh_not_ok db key now tok (resp, db2))

theorem reachable_inv (db : DB) (h : Reachable db) : StoreInv db := by
  induction h with
  | init =>
    exact ⟨⟨fun f hf => by simp [emptyDB] at hf, by simp [emptyDB]⟩,
      fun q hq => by simp [emptyDB] at hq⟩
  | step hr hstep ih => exact step_preserves_inv _ _ ih hstep

/-- C9.  In every store state reachable through the operations of the
server, every Friendship row carries its two usernames in strictly
increasing code-point order, and no two rows carry the same unordered pair
of usernames: all creation paths go through create_friendship, which sorts
the pair and refuses a pair that is already present. -/
theorem friendship_rows_canonical_and_unique (db : DB) (h : Reachable db) :
    (∀ f ∈ db.friendships, py_str_lt f.user1_username f.user2_username = true) ∧
    db.friendships.Pairwise (fun f g =>
      ¬ ((f.user1_username = g.user1_username ∧ f.user2_username = g.user2_username) ∨
         (f.user1_username = g.user2_username ∧ f.user2_username = g.user1_username))) :=
  (reachable_inv db h).1

/-- C9 witness.  The invariant read off a concrete reachable state holding
one friendship: a user row for alice and one for bob appear, alice requests
bob, bob accepts. -/
theorem friendship_rows_canonical_witness :
    (∀ f ∈ ex9_db4.friendships, py_str_lt f.user1_username f.user2_username = true) ∧
    ex9_db4.friendships.Pairwise (fun f g =>
      ¬ ((f.user1_username = g.user1_username ∧ f.user2_username = g.user2_username) ∨
         (f.user1_username = g.user2_username ∧ f.user2_username = g.user1_username))) :=
  friendship_rows_canonical_and_unique ex9_db4
    (Reachable.step
      (Reachable.step
        (Reachable.step
          (Reachable.step Reachable.init
            (Step.userRow emptyDB ex9_alice ex9_db1 (by decide)))
          (Step.userRow ex9_db1 ex9_bob ex9_db2 (by decide)))
        (Step.friendRequest ex9_db2 "alice" "bob" (Sum.inl ex9_req) ex9_db3 (by decide)))
      (Step.accept ex9_db3 "0" "bob" ex9_friendship ex9_db4 (by decide)))

/-! ## C10: what search returns -/

/-- C10 counterexample.  For the query consisting of three percent signs
(length 3, so accepted by the transport layer), the search returns bob,
whose username does not case-insensitively contain the query: the code
interpolates the query into the ILIKE pattern unescaped, so wildcard
characters are interpreted rather than matched literally. -/
theorem search_wildcard_counterexample :
    (search_users_route exSearchDB "%%%" "alice").map DbUser.username = ["bob"] ∧
    contains_ci "bob" "%%%" = false := by
  refine ⟨by decide, by decide⟩

/-- C10 amended.  search(q, u) returns at most 20 users, each a stored user
other than u whose username matches the case-insensitive LIKE pattern
percent-q-percent (wildcards inside q are interpreted, not escaped; for a
wildcard-free q this is case-insensitive containment), and never returns
any user sharing a Friendship row with u nor any recipient of a
FriendRequest sent by u, of any status. -/
theorem search_users_spec (db : DB) (q u : String) :
    (search_users_route db q u).length ≤ 20 ∧
    ∀ v ∈ search_users_route db q u,
      v ∈ db.users ∧
      v.username ≠ u ∧
      ilike v.username ("%" ++ q ++ "%") = true ∧
      (∀ r ∈ db.friend_requests, r.sender_username = u → r.recipient_username ≠ v.username) ∧
      (∀ f ∈ db.friendships,
        ¬ ((f.user1_username = u ∧ f.user2_username = v.username) ∨
           (f.user2_username = u ∧ f.user1_username = v.username))) := by
  constructor
  · unfold search_users_route search_users_by_query
    simp [List.length_take_le]
  · intro v hv
    unfold search_users_route search_users_by_query at hv
    have hv2 := List.take_subset 20 _ hv
    rw [List.mem_filter] at hv2
    obtain ⟨hmem, hpred⟩ := hv2
    simp only [Bool.and_eq_true, bne_iff_ne, ne_eq, Bool.not_eq_true] at hpred
    obtain ⟨⟨⟨hne, hilike⟩, hsent⟩, hfri⟩ := hpred
    refine ⟨hmem, hne, hilike, ?_, ?_⟩
    · intro r hr hrs
      intro hcontra
      have hin : v.username ∈ (db.friend_requests.filter
          (fun r2 => r2.sender_username == u)).map (fun r2 => r2.recipient_username) := by
        refine List.mem_map.mpr ⟨r, List.mem_filter.mpr ⟨hr, by simp [hrs]⟩, hcontra⟩
      simp [hin] at hsent
    · intro f hf
      intro hcontra
      have hin : v.username ∈ ((db.friendships.filter
            (fun f2 => f2.user1_username == u)).map (fun f2 => f2.user2_username) ++
          (db.friendships.filter
            (fun f2 => f2.user2_username == u)).map (fun f2 => f2.user1_username)) := by
        rcases hcontra with ⟨h1, h2⟩ | ⟨h1, h2⟩
        · exact List.mem_append.mpr (Or.inl
            (List.mem_map.mpr ⟨f, List.mem_filter.mpr ⟨hf, by simp [h1]⟩, h2⟩))
        · exact List.mem_append.mpr (Or.inr
            (List.mem_map.mpr ⟨f, List.mem_filter.mpr ⟨hf, by simp [h1]⟩, h2⟩))
      simp [hin] at hfri

/-- C10 witness.  The amended statement evaluated on a concrete store: the
query bo returns bob, a stored user distinct from alice matching the
pattern, and the exclusion clauses hold for him. -/
theorem search_users_spec_witness :
    (search_users_route exSearchDB "bo" "alice").length ≤ 20 ∧
    (mkUser "bob" "b@x.io" ∈ exSearchDB.users ∧
      (mkUser "bob" "b@x.io").username ≠ "alice" ∧
      ilike (mkUser "bob" "b@x.io").username ("%" ++ "bo" ++ "%") = true ∧
      (∀ r ∈ exSearchDB.friend_requests,
        r.sender_username = "alice" → r.recipient_username ≠ (mkUser "bob" "b@x.io").username) ∧
      (∀ f ∈ exSearchDB.friendships,
        ¬ ((f.user1_username = "alice" ∧ f.user2_username = (mkUser "bob" "b@x.io").username) ∨
           (f.user2_username = "alice" ∧ f.user1_username = (mkUser "bob" "b@x.io").username)))) :=
  ⟨(search_users_spec exSearchDB "bo" "alice").1,
   (search_users_spec exSearchDB "bo" "alice").2 (mkUser "bob" "b@x.io") (by decide)⟩
